import Mathlib

/-!
Verification development for the `messenger` webhook library
(src/messenger.go).  The webhook ingestion pipeline — integrity
verification, payload decoding, event classification and dispatch — is
embedded shallowly: Go structs become Lean structures, the mutable
request body becomes explicit state passing, handlers become opaque
identifiers and dispatch returns the ordered list of handler
invocations it would perform.
-/

set_option maxRecDepth 8000

/-! ### String helpers (models of Go `strings` functions used by the source) -/

/-- ASCII lowercasing of a string; models Go `strings.ToLower` on the ASCII
inputs relevant here (hex digests and the `sha1` token). -/
def asciiLower (s : String) : String := ⟨s.data.map Char.toLower⟩

/-- Split at the first `=`, returning the parts before and after it. -/
def breakAtEq : List Char → Option (List Char × List Char)
  | [] => none
  | c :: cs =>
    if c = '=' then some ([], cs)
    else (breakAtEq cs).map (fun p => (c :: p.1, p.2))

/-- Models Go `strings.SplitN(s, "=", 2)`: one element when `s` has no `=`,
otherwise the part before the first `=` and everything after it. -/
def splitN2Eq (s : String) : List String :=
  match breakAtEq s.data with
  | none => [s]
  | some p => [⟨p.1⟩, ⟨p.2⟩]

/-! ### JSON values and parser

Modelled from the spec: the Payload Decoder (spec section 4.2) parses the raw
body with Go `encoding/json` (standard library, outside this repository); we
embed a small JSON parser with the same observable behaviour on the inputs
the claims exercise (objects, arrays, strings with simple escapes, integer
numbers, keywords, insignificant whitespace, whole-input consumption). -/

inductive Json where
  | null
  | bool (b : Bool)
  | num (n : Int)
  | str (s : String)
  | arr (elems : List Json)
  | obj (members : List (String × Json))

/-- JSON insignificant whitespace. -/
def isWs (c : Char) : Bool :=
  c == ' ' || c == '\n' || c == '\t' || c == '\r'

/-- Drop leading JSON whitespace. -/
def skipWs : List Char → List Char
  | [] => []
  | c :: cs => if isWs c then skipWs cs else c :: cs

/-- Value of a simple JSON string escape. -/
def escChar (c : Char) : Char :=
  if c = 'n' then '\n' else if c = 't' then '\t' else if c = 'r' then '\r' else c

/-- Parse the remainder of a JSON string after the opening quote; returns the
decoded characters and the input after the closing quote. -/
def parseStrChars : List Char → Option (List Char × List Char)
  | [] => none
  | c :: cs =>
    if c = '"' then some ([], cs)
    else if c = '\\' then
      match cs with
      | [] => none
      | e :: cs2 => (parseStrChars cs2).map (fun p => (escChar e :: p.1, p.2))
    else (parseStrChars cs).map (fun p => (c :: p.1, p.2))

/-- Accumulate a run of decimal digits. -/
def parseDigits : List Char → Nat → Nat × List Char
  | [], acc => (acc, [])
  | c :: cs, acc =>
    if c.isDigit then parseDigits cs (acc * 10 + (c.toNat - 48)) else (acc, c :: cs)

/-- Parse a JSON integer (optional leading minus followed by digits). -/
def parseNumber : List Char → Option (Int × List Char)
  | [] => none
  | c :: cs =>
    if c = '-' then
      match cs with
      | [] => none
      | d :: _ =>
        if d.isDigit then
          some (-((parseDigits cs 0).1 : Int), (parseDigits cs 0).2)
        else none
    else if c.isDigit then
      some (((parseDigits (c :: cs) 0).1 : Int), (parseDigits (c :: cs) 0).2)
    else none

/-- Consume an expected literal character sequence. -/
def dropLit : List Char → List Char → Option (List Char)
  | [], s => some s
  | _ :: _, [] => none
  | c :: cs, d :: ds => if c = d then dropLit cs ds else none

mutual

/-- Parse one JSON value (fuel-indexed recursion). -/
def parseVal : Nat → List Char → Option (Json × List Char)
  | 0, _ => none
  | Nat.succ fuel, s =>
    match skipWs s with
    | [] => none
    | c :: cs =>
      if c = '"' then (parseStrChars cs).map (fun p => (Json.str ⟨p.1⟩, p.2))
      else if c = '[' then
        match skipWs cs with
        | [] => none
        | d :: ds =>
          if d = ']' then some (Json.arr [], ds)
          else (parseElems fuel (d :: ds)).map (fun p => (Json.arr p.1, p.2))
      else if c = Char.ofNat 123 then
        match skipWs cs with
        | [] => none
        | d :: ds =>
          if d = Char.ofNat 125 then some (Json.obj [], ds)
          else (parseMembers fuel (d :: ds)).map (fun p => (Json.obj p.1, p.2))
      else if c = 't' then (dropLit ['r', 'u', 'e'] cs).map (fun r => (Json.bool true, r))
      else if c = 'f' then (dropLit ['a', 'l', 's', 'e'] cs).map (fun r => (Json.bool false, r))
      else if c = 'n' then (dropLit ['u', 'l', 'l'] cs).map (fun r => (Json.null, r))
      else (parseNumber (c :: cs)).map (fun p => (Json.num p.1, p.2))

/-- Parse the comma-separated elements of a non-empty JSON array, including
the closing bracket. -/
def parseElems : Nat → List Char → Option (List Json × List Char)
  | 0, _ => none
  | Nat.succ fuel, s =>
    match parseVal fuel s with
    | none => none
    | some (v, r) =>
      match skipWs r with
      | [] => none
      | c :: cs =>
        if c = ',' then (parseElems fuel cs).map (fun p => (v :: p.1, p.2))
        else if c = ']' then some ([v], cs)
        else none

/-- Parse the members of a non-empty JSON object, including the closing
brace. -/
def parseMembers : Nat → List Char → Option (List (String × Json) × List Char)
  | 0, _ => none
  | Nat.succ fuel, s =>
    match skipWs s with
    | [] => none
    | c :: cs =>
      if c = '"' then
        match parseStrChars cs with
        | none => none
        | some (k, r) =>
          match skipWs r with
          | [] => none
          | d :: ds =>
            if d = ':' then
              match parseVal fuel ds with
              | none => none
              | some (v, r2) =>
                match skipWs r2 with
                | [] => none
                | e :: es =>
                  if e = ',' then
                    (parseMembers fuel es).map (fun p => ((String.mk k, v) :: p.1, p.2))
                  else if e = Char.ofNat 125 then some ([(String.mk k, v)], es)
                  else none
            else none
      else none

end

/-- Parse a complete JSON document: one value, possibly surrounded by
whitespace, consuming the whole input (Go `json.Unmarshal` rejects trailing
garbage). -/
def parseJson (s : String) : Option Json :=
  match parseVal (2 * s.length + 4) s.data with
  | none => none
  | some (v, rest) => if skipWs rest = [] then some v else none

/-! ### Data model

The struct declarations (`Receive`, `Entry`, `MessageInfo`, the payload
structs, the handler registry) live in repository files not present under
src/; their shapes are modelled from the spec (sections 3, 4.3, 4.4) and from
how src/messenger.go reads and writes their fields.  Go zero values are the
field defaults. -/

/-- Recipient: an opaque user/page identifier (Go `int64` id). -/
structure Recipient where
  id : Int := 0
  deriving Repr, DecidableEq

/-- Modelled from the spec: the Message payload — its distinguishing `text`
content plus the `sender`, `recipient` and derived wall-clock `time` (Unix
seconds) fields that dispatch fills in (spec section 3, NormalizedMessage).
Fields not read by src/messenger.go are omitted. -/
structure Message where
  sender : Recipient := {}
  recipient : Recipient := {}
  time : Int := 0
  text : String := ""
  deriving Repr, DecidableEq

/-- Modelled from the spec: the Delivery payload (delivery receipts carry a
watermark), with the NormalizedMessage enrichment fields of spec section 3. -/
structure Delivery where
  sender : Recipient := {}
  recipient : Recipient := {}
  time : Int := 0
  watermark : Int := 0
  deriving Repr, DecidableEq

/-- Modelled from the spec: the Read payload, with the NormalizedMessage
enrichment fields of spec section 3. -/
structure Read where
  sender : Recipient := {}
  recipient : Recipient := {}
  time : Int := 0
  watermark : Int := 0
  deriving Repr, DecidableEq

/-- Modelled from the spec: the PostBack payload, with the
NormalizedMessage enrichment fields of spec section 3. -/
structure PostBack where
  sender : Recipient := {}
  recipient : Recipient := {}
  time : Int := 0
  payload : String := ""
  deriving Repr, DecidableEq

/-- Modelled from the spec: the OptIn payload, with the NormalizedMessage
enrichment fields of spec section 3. -/
structure OptIn where
  sender : Recipient := {}
  recipient : Recipient := {}
  time : Int := 0
  ref : String := ""
  deriving Repr, DecidableEq

/-- Modelled from the spec: the ReferralMessage payload, with the
NormalizedMessage enrichment fields of spec section 3. -/
structure ReferralMessage where
  sender : Recipient := {}
  recipient : Recipient := {}
  time : Int := 0
  ref : String := ""
  deriving Repr, DecidableEq

/-- Modelled from the spec: the AccountLinking payload, with the
NormalizedMessage enrichment fields of spec section 3. -/
structure AccountLinking where
  sender : Recipient := {}
  recipient : Recipient := {}
  time : Int := 0
  status : String := ""
  deriving Repr, DecidableEq

/-- MessageInfo: one messaging event — the common fields plus the tagged
union of mutually-exclusive optional payloads (spec section 3), exactly the
fields src/messenger.go reads (`classify`, `dispatch`). -/
structure MessageInfo where
  sender : Recipient := {}
  recipient : Recipient := {}
  timestamp : Int := 0
  message : Option Message := none
  delivery : Option Delivery := none
  read : Option Read := none
  postBack : Option PostBack := none
  optIn : Option OptIn := none
  referralMessage : Option ReferralMessage := none
  accountLinking : Option AccountLinking := none
  deriving Repr, DecidableEq

/-- Entry: one unit of batched webhook delivery; `dispatch` reads only its
ordered `messaging` events. -/
structure Entry where
  messaging : List MessageInfo := []
  deriving Repr, DecidableEq

/-- Receive: the decoded envelope — `object` discriminator and ordered
entries (fields read by `Handle` and `dispatch`). -/
structure Receive where
  object : String := ""
  entry : List Entry := []
  deriving Repr, DecidableEq

/-- The event categories returned by `classify` (Go type `Action`; renamed
here because `Action` already names a Mathlib declaration). -/
inductive MessengerAction where
  | TextAction
  | DeliveryAction
  | ReadAction
  | PostBackAction
  | OptInAction
  | ReferralAction
  | AccountLinkingAction
  | UnknownAction
  deriving Repr, DecidableEq

/-- Response handle built per dispatched event (src/messenger.go lines
289-293): target recipient (Go field `to`, renamed because `to` is a
reserved token) and page token; the HTTP client field is outside
the model. -/
structure Response where
  toRecipient : Recipient := {}
  token : String := ""
  deriving Repr, DecidableEq

/-- Modelled from the spec: the process-wide Handler Registry (spec sections
2 and 3) — per-category handler lists in registration order; the handler
functions themselves are opaque and represented by numeric identifiers. -/
structure Registry where
  messageHandlers : List Nat := []
  deliveryHandlers : List Nat := []
  readHandlers : List Nat := []
  postBackHandlers : List Nat := []
  optInHandlers : List Nat := []
  referralHandlers : List Nat := []
  accountLinkingHandlers : List Nat := []
  deriving Repr, DecidableEq

/-- One handler invocation performed by dispatch: which handler was called
and with which payload value and response handle. -/
inductive Invocation where
  | text (h : Nat) (msg : Message) (resp : Response)
  | delivery (h : Nat) (d : Delivery) (resp : Response)
  | read (h : Nat) (rd : Read) (resp : Response)
  | postBack (h : Nat) (p : PostBack) (resp : Response)
  | optIn (h : Nat) (o : OptIn) (resp : Response)
  | referral (h : Nat) (rf : ReferralMessage) (resp : Response)
  | accountLinking (h : Nat) (al : AccountLinking) (resp : Response)
  deriving Repr, DecidableEq

/-- Options (src/messenger.go lines 27-41); Go zero values as defaults; the
custom HTTP client is outside the model. -/
structure Options where
  verify : Bool := false
  appSecret : String := ""
  verifyToken : String := ""
  token : String := ""
  deriving Repr, DecidableEq

/-- Messenger client state (src/messenger.go lines 44-51); the HTTP client
and mux fields are outside the model. -/
structure Messenger where
  token : String := ""
  verify : Bool := false
  appSecret : String := ""
  verifyToken : String := ""
  deriving Repr, DecidableEq

/-- New (src/messenger.go lines 54-68): copies the options into the client. -/
def New (mo : Options) : Messenger :=
  { token := mo.token, verify := mo.verify, appSecret := mo.appSecret,
    verifyToken := mo.verifyToken }

/-! ### Decoding JSON into the data model

Modelled from the spec: Go `encoding/json` field mapping for the schema of
spec section 3 (the struct tag declarations are in repository files not under
src/).  Missing object keys leave the Go zero value, `null` leaves a nil
pointer (here `none`), duplicate keys let the later value win, and a type
mismatch is a decode error. -/

/-- Look up a key in a JSON object, later duplicates winning (Go
`encoding/json` overwrites on duplicate keys). -/
def jLookup (members : List (String × Json)) (k : String) : Option Json :=
  match members with
  | [] => none
  | kv :: rest =>
    match jLookup rest k with
    | some v => some v
    | none => if kv.1 = k then some kv.2 else none

/-- Decode a JSON value into a Go `int64` field (`null` keeps the zero
value). -/
def decodeInt (j : Json) : Except String Int :=
  match j with
  | .num n => .ok n
  | .null => .ok 0
  | _ => .error "json: cannot unmarshal into int64"

/-- Decode a JSON value into a Go `string` field (`null` keeps the empty
string). -/
def decodeStr (j : Json) : Except String String :=
  match j with
  | .str s => .ok s
  | .null => .ok ""
  | _ => .error "json: cannot unmarshal into string"

/-- Decode an optional (pointer) struct field: absent or `null` is `none`. -/
def decodeOpt {α : Type} (dec : Json → Except String α)
    (members : List (String × Json)) (key : String) : Except String (Option α) :=
  match jLookup members key with
  | none => .ok none
  | some Json.null => .ok none
  | some j => (dec j).map some

/-- Decode a JSON value into a list field (absent handled by callers; `null`
is the empty list). -/
def decodeList {α : Type} (dec : Json → Except String α) (j : Json) :
    Except String (List α) :=
  match j with
  | .arr xs => xs.mapM dec
  | .null => .ok []
  | _ => .error "json: cannot unmarshal into slice"

/-- Decode a Recipient (`id` field). -/
def decodeRecipient (j : Json) : Except String Recipient :=
  match j with
  | .obj ms =>
    (match jLookup ms "id" with
     | none => .ok {}
     | some v => (decodeInt v).map (fun n => { id := n }))
  | .null => .ok {}
  | _ => .error "json: cannot unmarshal into Recipient"

/-- Decode a Message payload (`text` field; enrichment fields are excluded
from JSON and stay zero). -/
def decodeMessage (j : Json) : Except String Message :=
  match j with
  | .obj ms =>
    (match jLookup ms "text" with
     | none => .ok {}
     | some v => (decodeStr v).map (fun t => { text := t }))
  | _ => .error "json: cannot unmarshal into Message"

/-- Decode a Delivery payload (`watermark` field). -/
def decodeDelivery (j : Json) : Except String Delivery :=
  match j with
  | .obj ms =>
    (match jLookup ms "watermark" with
     | none => .ok {}
     | some v => (decodeInt v).map (fun w => { watermark := w }))
  | _ => .error "json: cannot unmarshal into Delivery"

/-- Decode a Read payload (`watermark` field). -/
def decodeRead (j : Json) : Except String Read :=
  match j with
  | .obj ms =>
    (match jLookup ms "watermark" with
     | none => .ok {}
     | some v => (decodeInt v).map (fun w => { watermark := w }))
  | _ => .error "json: cannot unmarshal into Read"

/-- Decode a PostBack payload (`payload` field). -/
def decodePostBack (j : Json) : Except String PostBack :=
  match j with
  | .obj ms =>
    (match jLookup ms "payload" with
     | none => .ok {}
     | some v => (decodeStr v).map (fun p => { payload := p }))
  | _ => .error "json: cannot unmarshal into PostBack"

/-- Decode an OptIn payload (`ref` field). -/
def decodeOptIn (j : Json) : Except String OptIn :=
  match j with
  | .obj ms =>
    (match jLookup ms "ref" with
     | none => .ok {}
     | some v => (decodeStr v).map (fun r => { ref := r }))
  | _ => .error "json: cannot unmarshal into OptIn"

/-- Decode a ReferralMessage payload (`ref` field). -/
def decodeReferralMessage (j : Json) : Except String ReferralMessage :=
  match j with
  | .obj ms =>
    (match jLookup ms "ref" with
     | none => .ok {}
     | some v => (decodeStr v).map (fun r => { ref := r }))
  | _ => .error "json: cannot unmarshal into ReferralMessage"

/-- Decode an AccountLinking payload (`status` field). -/
def decodeAccountLinking (j : Json) : Except String AccountLinking :=
  match j with
  | .obj ms =>
    (match jLookup ms "status" with
     | none => .ok {}
     | some v => (decodeStr v).map (fun s => { status := s }))
  | _ => .error "json: cannot unmarshal into AccountLinking"

/-- Decode one MessagingEvent: common fields plus the optional union
payloads. -/
def decodeMessageInfo (j : Json) : Except String MessageInfo :=
  match j with
  | .obj ms => do
    let sender ← match jLookup ms "sender" with
      | none => pure {}
      | some v => decodeRecipient v
    let recipient ← match jLookup ms "recipient" with
      | none => pure {}
      | some v => decodeRecipient v
    let timestamp ← match jLookup ms "timestamp" with
      | none => pure 0
      | some v => decodeInt v
    let message ← decodeOpt decodeMessage ms "message"
    let delivery ← decodeOpt decodeDelivery ms "delivery"
    let readPayload ← decodeOpt decodeRead ms "read"
    let postBack ← decodeOpt decodePostBack ms "postback"
    let optIn ← decodeOpt decodeOptIn ms "optin"
    let referralMessage ← decodeOpt decodeReferralMessage ms "referral"
    let accountLinking ← decodeOpt decodeAccountLinking ms "account_linking"
    .ok { sender := sender, recipient := recipient, timestamp := timestamp,
          message := message, delivery := delivery, read := readPayload,
          postBack := postBack, optIn := optIn,
          referralMessage := referralMessage, accountLinking := accountLinking }
  | _ => .error "json: cannot unmarshal into MessageInfo"

/-- Decode one Entry (`messaging` array). -/
def decodeEntry (j : Json) : Except String Entry :=
  match j with
  | .obj ms =>
    (match jLookup ms "messaging" with
     | none => .ok {}
     | some v => (decodeList decodeMessageInfo v).map (fun l => { messaging := l }))
  | .null => .ok {}
  | _ => .error "json: cannot unmarshal into Entry"

/-- Decode the whole envelope from the raw body, as `json.Unmarshal(body,
&rec)` does in Handle (src/messenger.go line 217). -/
def decodeReceive (s : String) : Except String Receive :=
  match parseJson s with
  | none => .error "invalid character in JSON input"
  | some j =>
    match j with
    | .obj ms => do
      let object ← match jLookup ms "object" with
        | none => pure ""
        | some v => decodeStr v
      let entry ← match jLookup ms "entry" with
        | none => pure []
        | some v => decodeList decodeEntry v
      .ok { object := object, entry := entry }
    | .null => .ok {}
    | _ => .error "json: cannot unmarshal into Receive"

/-! ### HTTP request/response model

An `http.Request` is modelled by its method, parsed query parameters,
headers, and the unread remainder of its body stream (`bodyAvail`); Go
`ioutil.ReadAll` consumes the stream and `r.Body = ioutil.NopCloser(...)`
replaces it, so both become explicit state passing. -/

/-- The observable parts of an incoming `http.Request`. -/
structure Request where
  method : String := "POST"
  query : List (String × String) := []
  headers : List (String × String) := []
  bodyAvail : String := ""
  deriving Repr, DecidableEq

/-- Go `r.Header.Get(k)`: first value for the key, or the empty string. -/
def headerGet (r : Request) (k : String) : String :=
  (r.headers.lookup k).getD ""

/-- Go `r.FormValue(k)` on a GET request: first query value for the key, or
the empty string. -/
def formValue (r : Request) (k : String) : String :=
  (r.query.lookup k).getD ""

/-- Go `ioutil.ReadAll(r.Body)`: returns the remaining stream contents and
leaves the stream empty. -/
def readAll (r : Request) : String × Request :=
  (r.bodyAvail, { r with bodyAvail := "" })

/-- An HTTP response as the webhook writes it: status code and full body
text (`http.Error` and `fmt.Fprintln` both append a newline). -/
structure HttpResponse where
  status : Nat := 200
  body : String := ""
  deriving Repr, DecidableEq

/-! ### The webhook pipeline (src/messenger.go) -/

/-- checkIntegrity (src/messenger.go lines 244-277).  `hmacSha1Hex secret
body` stands for the lowercase hex rendering `fmt.Sprintf("%x", ...)` of the
HMAC-SHA1 of `body` keyed by `secret` (Go `crypto/hmac` + `crypto/sha1`,
standard library, outside this repository); the pipeline is parameterised
over it.  Returns the verification result and the request after its
read-then-replace of the body stream. -/
def checkIntegrity (hmacSha1Hex : String → String → String) (m : Messenger)
    (r : Request) : Except String Unit × Request :=
  if m.appSecret = "" then (.error "missing app secret", r)
  else
    let sig := splitN2Eq (headerGet r "X-Hub-Signature")
    if sig.length = 1 then
      if sig.headD "" = "" then (.error "missing X-Hub-Signature header", r)
      else (.error ("malformed X-Hub-Signature header: " ++ sig.headD ""), r)
    else
      let p := readAll r
      let body := p.1
      let r2 := { p.2 with bodyAvail := body }
      let sigEnc := asciiLower (sig.headD "")
      let sigHash := asciiLower (sig.getD 1 "")
      if sigEnc = "sha1" then
        if hmacSha1Hex m.appSecret body ≠ sigHash then
          (.error ("invalid signature: " ++ sigHash), r2)
        else (.ok (), r2)
      else
        (.error ("unknown X-Hub-Signature header encoding, expected sha1: " ++
                 sig.headD ""), r2)

/-- classify (src/messenger.go lines 392-409): first populated union field in
the source's fixed check order, `UnknownAction` when none is populated. -/
def classify (m : Messenger) (info : MessageInfo) (e : Entry) : MessengerAction :=
  if info.message.isSome then .TextAction
  else if info.delivery.isSome then .DeliveryAction
  else if info.read.isSome then .ReadAction
  else if info.postBack.isSome then .PostBackAction
  else if info.optIn.isSome then .OptInAction
  else if info.referralMessage.isSome then .ReferralAction
  else if info.accountLinking.isSome then .AccountLinkingAction
  else .UnknownAction

/-- The per-event body of dispatch's inner loop (src/messenger.go lines
283-344): classify, skip unknown events, build the per-event response handle
and invoke the registered handlers of the matching category in registration
order.  `int64(time.Microsecond)` is 1000, so the derived time is
`time.Unix(info.Timestamp/1000, 0)` (Go `/` on int64 truncates toward
zero). -/
def dispatchEvent (m : Messenger) (reg : Registry) (entry : Entry)
    (info : MessageInfo) : List Invocation :=
  let a := classify m info entry
  if a = .UnknownAction then []
  else
    let resp : Response := { toRecipient := { id := info.sender.id }, token := m.token }
    match a with
    | .TextAction =>
      match info.message with
      | some msg0 =>
        reg.messageHandlers.map (fun h =>
          .text h { msg0 with sender := info.sender, recipient := info.recipient,
                              time := Int.tdiv info.timestamp 1000 } resp)
      | none => []
    | .DeliveryAction =>
      match info.delivery with
      | some d => reg.deliveryHandlers.map (fun h => .delivery h d resp)
      | none => []
    | .ReadAction =>
      match info.read with
      | some rd => reg.readHandlers.map (fun h => .read h rd resp)
      | none => []
    | .PostBackAction =>
      match info.postBack with
      | some pb =>
        reg.postBackHandlers.map (fun h =>
          .postBack h { pb with sender := info.sender, recipient := info.recipient,
                                time := Int.tdiv info.timestamp 1000 } resp)
      | none => []
    | .OptInAction =>
      match info.optIn with
      | some o =>
        reg.optInHandlers.map (fun h =>
          .optIn h { o with sender := info.sender, recipient := info.recipient,
                            time := Int.tdiv info.timestamp 1000 } resp)
      | none => []
    | .ReferralAction =>
      match info.referralMessage with
      | some rf =>
        reg.referralHandlers.map (fun h =>
          .referral h { rf with sender := info.sender, recipient := info.recipient,
                                time := Int.tdiv info.timestamp 1000 } resp)
      | none => []
    | .AccountLinkingAction =>
      match info.accountLinking with
      | some al =>
        reg.accountLinkingHandlers.map (fun h =>
          .accountLinking h { al with sender := info.sender, recipient := info.recipient,
                                      time := Int.tdiv info.timestamp 1000 } resp)
      | none => []
    | .UnknownAction => []

/-- dispatch (src/messenger.go lines 280-347): entries in array order, events
in array order within each entry; returns the ordered handler invocation
list. -/
def dispatch (m : Messenger) (reg : Registry) (r : Receive) : List Invocation :=
  r.entry.flatMap (fun entry =>
    entry.messaging.flatMap (fun info => dispatchEvent m reg entry info))

/-- verifyHandler (src/messenger.go lines 412-418): token match echoes the
challenge via `fmt.Fprintln` (which appends a newline) with implicit status
200; mismatch is `http.Error(w, "Incorrect verify token", 403)` (which also
appends a newline). -/
def verifyHandler (m : Messenger) (r : Request) : HttpResponse :=
  if formValue r "hub.verify_token" = m.verifyToken then
    { status := 200, body := formValue r "hub.challenge" ++ "\n" }
  else
    { status := 403, body := "Incorrect verify token\n" }

/-- The fixed acknowledgement body written by Handle on success
(src/messenger.go line 240). -/
def ackBody : String := "\x7bstatus: \x27ok\x27\x7d\n"

/-- The outcome of one Handle call: the HTTP response, the ordered handler
invocations performed, and the final request state (body stream). -/
structure HandleResult where
  resp : HttpResponse
  calls : List Invocation
  req : Request
  deriving Repr, DecidableEq

/-- Handle (src/messenger.go lines 203-241): GET goes to verifyHandler; POST
reads a copy of the body and replaces the stream, decodes it (422 on
failure), rejects a non-"page" object (422), then — only in verify mode —
runs checkIntegrity (403 on failure), and finally dispatches and writes the
fixed acknowledgement. -/
def Handle (hmacSha1Hex : String → String → String) (m : Messenger)
    (reg : Registry) (r : Request) : HandleResult :=
  if r.method = "GET" then { resp := verifyHandler m r, calls := [], req := r }
  else
    let p := readAll r
    let body := p.1
    let r2 := { p.2 with bodyAvail := body }
    match decodeReceive body with
    | .error e =>
      { resp := { status := 422, body := e ++ "\n" }, calls := [], req := r2 }
    | .ok rec =>
      if rec.object ≠ "page" then
        { resp := { status := 422,
                    body := "Object is not page, undefined behaviour. Got: " ++
                            rec.object ++ "\n" },
          calls := [], req := r2 }
      else if m.verify then
        match checkIntegrity hmacSha1Hex m r2 with
        | (.error e, r3) =>
          { resp := { status := 403, body := e ++ "\n" }, calls := [], req := r3 }
        | (.ok _, r3) =>
          { resp := { status := 200, body := ackBody },
            calls := dispatch m reg rec, req := r3 }
      else
        { resp := { status := 200, body := ackBody },
          calls := dispatch m reg rec, req := r2 }

/-! ### Spec-side descriptions (for refinement comparisons) -/

/-- The spec's precedence list (section 4.3): categories of the populated
union fields of an event, in the order Message > Delivery > Read > PostBack >
OptIn > ReferralMessage > AccountLinking. -/
def populatedCategories (info : MessageInfo) : List MessengerAction :=
  (if info.message.isSome then [MessengerAction.TextAction] else []) ++
  (if info.delivery.isSome then [MessengerAction.DeliveryAction] else []) ++
  (if info.read.isSome then [MessengerAction.ReadAction] else []) ++
  (if info.postBack.isSome then [MessengerAction.PostBackAction] else []) ++
  (if info.optIn.isSome then [MessengerAction.OptInAction] else []) ++
  (if info.referralMessage.isSome then [MessengerAction.ReferralAction] else []) ++
  (if info.accountLinking.isSome then [MessengerAction.AccountLinkingAction] else [])

/-- The amended NormalizedMessage construction (amended spec section 3): the
first populated payload in precedence order wins; Text, PostBack, OptIn,
Referral and AccountLinking payloads are enriched with the event's sender,
recipient and derived time (`timestamp` divided by 1000, toward zero, as Unix
seconds), while Delivery and Read payloads are passed to their handlers
unmodified; an event with no populated field invokes no handler. -/
def specDispatchEvent (m : Messenger) (reg : Registry) (info : MessageInfo) :
    List Invocation :=
  let resp : Response := { toRecipient := { id := info.sender.id }, token := m.token }
  let t := Int.tdiv info.timestamp 1000
  match info.message, info.delivery, info.read, info.postBack, info.optIn,
        info.referralMessage, info.accountLinking with
  | some msg, _, _, _, _, _, _ =>
    reg.messageHandlers.map (fun h =>
      .text h { msg with sender := info.sender, recipient := info.recipient, time := t } resp)
  | none, some d, _, _, _, _, _ =>
    reg.deliveryHandlers.map (fun h => .delivery h d resp)
  | none, none, some rd, _, _, _, _ =>
    reg.readHandlers.map (fun h => .read h rd resp)
  | none, none, none, some pb, _, _, _ =>
    reg.postBackHandlers.map (fun h =>
      .postBack h { pb with sender := info.sender, recipient := info.recipient, time := t } resp)
  | none, none, none, none, some o, _, _ =>
    reg.optInHandlers.map (fun h =>
      .optIn h { o with sender := info.sender, recipient := info.recipient, time := t } resp)
  | none, none, none, none, none, some rf, _ =>
    reg.referralHandlers.map (fun h =>
      .referral h { rf with sender := info.sender, recipient := info.recipient, time := t } resp)
  | none, none, none, none, none, none, some al =>
    reg.accountLinkingHandlers.map (fun h =>
      .accountLinking h { al with sender := info.sender, recipient := info.recipient, time := t } resp)
  | none, none, none, none, none, none, none => []

/-! ### Concrete instances used by witnesses and counterexamples -/

/-- A concrete stand-in for the HMAC-SHA1 hex function, for closed
instantiations of the pipeline (its value is irrelevant to the statements
that use it). -/
def hmW : String → String → String := fun _ _ => "aa"

/-- A messenger with verification disabled and default configuration. -/
def mPlain : Messenger := {}

/-- A messenger in verify mode with a configured app secret. -/
def mVerify : Messenger := { verify := true, appSecret := "secret" }

/-- A messenger with verify token `abc`. -/
def mAbc : Messenger := { verifyToken := "abc" }

/-- A registry with a single Text handler (id 1). -/
def regOneMsg : Registry := { messageHandlers := [1] }

/-- A registry with a single Delivery handler (id 1) and a single Text
handler (id 2). -/
def regDelivery : Registry := { messageHandlers := [2], deliveryHandlers := [1] }

/-- A POST whose body decodes to an envelope with object `x` (not `page`),
carrying a signature header that fails verification under `hmW`. -/
def reqObjX : Request :=
  { method := "POST", headers := [("X-Hub-Signature", "sha1=bb")],
    bodyAvail := "\x7b\"object\":\"x\"\x7d" }

/-- The envelope `reqObjX`'s body decodes to. -/
def recObjX : Receive := { object := "x" }

/-- A POST whose body decodes to an envelope with object `page` and no
entries, carrying a signature header that fails verification under `hmW`. -/
def reqPageBadSig : Request :=
  { method := "POST", headers := [("X-Hub-Signature", "sha1=bb")],
    bodyAvail := "\x7b\"object\":\"page\"\x7d" }

/-- The envelope `reqPageBadSig`'s body decodes to. -/
def recPage : Receive := { object := "page" }

/-- The spec section 8 GET handshake request with the correct token. -/
def reqHandshakeOk : Request :=
  { method := "GET",
    query := [("hub.verify_token", "abc"), ("hub.challenge", "42")] }

/-- The spec section 8 GET handshake request with the wrong token. -/
def reqHandshakeWrong : Request :=
  { method := "GET",
    query := [("hub.verify_token", "wrong"), ("hub.challenge", "42")] }

/-- A GET request with no query parameters at all. -/
def reqBareGet : Request := { method := "GET" }

/-- A delivery event whose sender/recipient/timestamp are populated, to
observe whether dispatch enriches the Delivery payload. -/
def infoDelivery : MessageInfo :=
  { sender := { id := 5 }, recipient := { id := 6 }, timestamp := 2000,
    delivery := some { watermark := 7 } }

/-- A text event with the same common fields as `infoDelivery`. -/
def infoText : MessageInfo :=
  { sender := { id := 5 }, recipient := { id := 6 }, timestamp := 2000,
    message := some { text := "hi" } }

/-- An event with no populated union field. -/
def infoEmpty : MessageInfo := { sender := { id := 9 } }

/-- The spec section 8 POST body. -/
def body8 : String :=
  "\x7b\"object\":\"page\",\"entry\":[\x7b\"messaging\":[\x7b\"sender\":\x7b\"id\":1\x7d,\"recipient\":\x7b\"id\":2\x7d,\"timestamp\":1000000,\"message\":\x7b\"text\":\"hi\"\x7d\x7d]\x7d]\x7d"

/-- The spec section 8 POST request (verification disabled client). -/
def req8 : Request := { method := "POST", bodyAvail := body8 }

/-! ### Helper lemmas -/

/-- An event with no populated union field classifies as Unknown. -/
lemma populatedCategories_nil_classify (m : Messenger) (info : MessageInfo) (e : Entry)
    (h : populatedCategories info = []) : classify m info e = .UnknownAction := by
  rcases info with ⟨s, r, ts, msg, del, rd, pb, oi, rf, al⟩
  cases msg <;> cases del <;> cases rd <;> cases pb <;> cases oi <;> cases rf <;> cases al <;>
    first
    | rfl
    | simp [populatedCategories] at h

/-- An event classified as Unknown produces no handler invocation. -/
lemma classify_unknown_dispatchEvent_nil (m : Messenger) (reg : Registry) (e : Entry)
    (info : MessageInfo) (h : classify m info e = .UnknownAction) :
    dispatchEvent m reg e info = [] := by
  simp [dispatchEvent, h]

/-! ### Claim theorems -/

/-- Claim C1, counterexample: a POST in verify mode whose signature fails
`checkIntegrity` but whose body decodes to an envelope with object `x` is
answered 422, not 403 — the decoder and object check run before the
Integrity Verifier, so the claim's "403 regardless of the body and of the
object discriminator" is false on the code. -/
theorem handle_badsig_nonpage_422_cex :
    mVerify.verify = true ∧
    (checkIntegrity hmW mVerify reqObjX).1.isOk = false ∧
    (Handle hmW mVerify regOneMsg reqObjX).resp.status = 422 ∧
    (Handle hmW mVerify regOneMsg reqObjX).resp.status ≠ 403 :=
  ⟨rfl, rfl, rfl, by decide⟩

/-- Claim C1, amended: for every POST request with verification-mode enabled
whose body decodes to an envelope with object `page` and whose
X-Hub-Signature fails integrity verification, the handler responds 403 and
does not dispatch; bodies that fail to decode, or whose object discriminator
is not `page`, are rejected 422 by the earlier decode/object stages even
when the signature is bad. -/
theorem handle_verify_fail_403 (hm : String → String → String) (m : Messenger)
    (reg : Registry) (r : Request) (rec : Receive) (err : String)
    (hP : r.method ≠ "GET") (hv : m.verify = true)
    (hdec : decodeReceive r.bodyAvail = .ok rec) (hobj : rec.object = "page")
    (hint : (checkIntegrity hm m r).1 = .error err) :
    (Handle hm m reg r).resp.status = 403 ∧ (Handle hm m reg r).calls = [] := by
  rcases hc : checkIntegrity hm m r with ⟨res, r3⟩
  rw [hc] at hint
  simp at hint
  subst hint
  simp [Handle, readAll, hP, hv, hdec, hobj, hc]

/-- Claim C1, witness: a verify-mode POST with object `page` and a failing
signature is answered 403 with no dispatch. -/
theorem handle_verify_fail_403_witness :
    (Handle hmW mVerify regOneMsg reqPageBadSig).resp.status = 403 ∧
    (Handle hmW mVerify regOneMsg reqPageBadSig).calls = [] :=
  handle_verify_fail_403 hmW mVerify regOneMsg reqPageBadSig recPage
    ("invalid signature: bb") (by decide) rfl rfl rfl rfl

/-- Claim C2: `classify` returns the category of the first populated union
field in the precedence order Message > Delivery > Read > PostBack > OptIn >
ReferralMessage > AccountLinking, and Unknown when none is populated; in
particular an event with exactly one populated field gets the matching
category and with several populated fields the earlier-listed category
wins. -/
theorem classify_first_populated (m : Messenger) (info : MessageInfo) (e : Entry) :
    classify m info e = (populatedCategories info).headD MessengerAction.UnknownAction := by
  rcases info with ⟨s, r, ts, msg, del, rd, pb, oi, rf, al⟩
  cases msg <;> cases del <;> cases rd <;> cases pb <;> cases oi <;> cases rf <;> cases al <;> rfl

/-- Claim C3: every POST whose body decodes to an envelope with object
discriminator different from `page` is answered 422 and invokes no
handler. -/
theorem handle_object_mismatch_422 (hm : String → String → String) (m : Messenger)
    (reg : Registry) (r : Request) (rec : Receive)
    (hP : r.method ≠ "GET") (hdec : decodeReceive r.bodyAvail = .ok rec)
    (hobj : rec.object ≠ "page") :
    (Handle hm m reg r).resp.status = 422 ∧ (Handle hm m reg r).calls = [] := by
  simp [Handle, readAll, hP, hdec, hobj]

/-- Claim C3, witness: a POST with body decoding to object `x` is answered
422 with no handler invocation. -/
theorem handle_object_mismatch_422_witness :
    (Handle hmW mPlain regOneMsg reqObjX).resp.status = 422 ∧
    (Handle hmW mPlain regOneMsg reqObjX).calls = [] :=
  handle_object_mismatch_422 hmW mPlain regOneMsg reqObjX recObjX
    (by decide) rfl (by decide)

/-- Claim C5, counterexample: dispatch passes a Delivery payload to its
handler unmodified — sender and derived time stay at their zero values even
though the event's sender is populated — while a Text payload under the same
event data is enriched; so enrichment is not performed identically across
all categories. -/
theorem dispatch_delivery_not_enriched_cex :
    dispatchEvent mPlain regDelivery {} infoDelivery =
      [Invocation.delivery 1
        { sender := { id := 0 }, recipient := { id := 0 }, time := 0, watermark := 7 }
        { toRecipient := { id := 5 }, token := "" }] ∧
    infoDelivery.sender = { id := 5 } ∧
    dispatchEvent mPlain regDelivery {} infoText =
      [Invocation.text 2
        { sender := { id := 5 }, recipient := { id := 6 }, time := 2, text := "hi" }
        { toRecipient := { id := 5 }, token := "" }] ∧
    ({ id := 0 } : Recipient) ≠ ({ id := 5 } : Recipient) :=
  ⟨rfl, rfl, rfl, by decide⟩

/-- Claim C5, amended: for every dispatched event, Text, PostBack, OptIn,
Referral and AccountLinking payloads are enriched with the event's sender,
recipient and derived wall-clock time (timestamp divided by 1000, as Unix
seconds), while Delivery and Read payloads are passed to their handlers
unmodified; the response handle is bound to the event's sender in every
category. -/
theorem dispatchEvent_normalization (m : Messenger) (reg : Registry) (e : Entry)
    (info : MessageInfo) :
    dispatchEvent m reg e info = specDispatchEvent m reg info := by
  rcases info with ⟨s, r, ts, msg, del, rd, pb, oi, rf, al⟩
  cases msg <;> cases del <;> cases rd <;> cases pb <;> cases oi <;> cases rf <;> cases al <;> rfl

/-- Claim C6: dispatch processes entries and their events in array order
(concatenation of batches is concatenation of invocation lists, at the entry
level and at the event level); an event with zero populated union fields
classifies as Unknown, produces no handler invocation, and removing it from
the middle of a batch leaves the other events' invocations unchanged — it
never aborts the rest of the batch. -/
theorem dispatch_in_order_unknown_skipped (m : Messenger) (reg : Registry) (o : String)
    (es1 es2 : List Entry) (e : Entry) (xs ys : List MessageInfo)
    (pre post : List Entry) (info : MessageInfo)
    (hnone : populatedCategories info = []) :
    (dispatch m reg { object := o, entry := es1 ++ es2 } =
       dispatch m reg { object := o, entry := es1 } ++
       dispatch m reg { object := o, entry := es2 }) ∧
    (dispatch m reg { object := o, entry := [{ messaging := xs ++ ys }] } =
       dispatch m reg { object := o, entry := [{ messaging := xs }] } ++
       dispatch m reg { object := o, entry := [{ messaging := ys }] }) ∧
    classify m info e = .UnknownAction ∧
    dispatchEvent m reg e info = [] ∧
    (dispatch m reg
        { object := o, entry := pre ++ ({ messaging := xs ++ info :: ys } : Entry) :: post } =
       dispatch m reg
        { object := o, entry := pre ++ ({ messaging := xs ++ ys } : Entry) :: post }) := by
  have hcl : ∀ e' : Entry, classify m info e' = .UnknownAction :=
    fun e' => populatedCategories_nil_classify m info e' hnone
  have hde : ∀ e' : Entry, dispatchEvent m reg e' info = [] :=
    fun e' => classify_unknown_dispatchEvent_nil m reg e' info (hcl e')
  refine ⟨?_, ?_, hcl e, hde e, ?_⟩
  · simp [dispatch, List.flatMap_append]
  · simp only [dispatch, List.flatMap_cons, List.flatMap_nil, List.append_nil]
    exact List.flatMap_append ..
  · simp only [dispatch, List.flatMap_append, List.flatMap_cons, hde, List.nil_append]
    rfl

/-- Claim C6, witness: a sender-only event (no populated union field)
classifies as Unknown and yields no invocation, and dropping it from a batch
between two text events leaves the batch's invocations unchanged. -/
theorem dispatch_in_order_unknown_skipped_witness :
    classify mPlain infoEmpty {} = .UnknownAction ∧
    dispatchEvent mPlain regDelivery {} infoEmpty = [] ∧
    dispatch mPlain regDelivery
        { object := "page", entry := [({ messaging := [infoText] ++ infoEmpty :: [infoText] } : Entry)] } =
      dispatch mPlain regDelivery
        { object := "page", entry := [({ messaging := [infoText] ++ [infoText] } : Entry)] } :=
  ⟨(dispatch_in_order_unknown_skipped mPlain regDelivery "page" [] [] {} [infoText]
      [infoText] [] [] infoEmpty rfl).2.2.1,
   (dispatch_in_order_unknown_skipped mPlain regDelivery "page" [] [] {} [infoText]
      [infoText] [] [] infoEmpty rfl).2.2.2.1,
   (dispatch_in_order_unknown_skipped mPlain regDelivery "page" [] [] {} [infoText]
      [infoText] [] [] infoEmpty rfl).2.2.2.2⟩

/-- Claim C7, counterexample: on the matching GET handshake with challenge
`42`, the response body is the challenge followed by a newline (written by
`fmt.Fprintln`), so it is not exactly `42`. -/
theorem verify_challenge_newline_cex :
    (Handle hmW mAbc regOneMsg reqHandshakeOk).resp.status = 200 ∧
    (Handle hmW mAbc regOneMsg reqHandshakeOk).resp.body = "42\n" ∧
    (Handle hmW mAbc regOneMsg reqHandshakeOk).resp.body ≠ "42" :=
  ⟨rfl, rfl, by decide⟩

/-- Claim C7, amended: on every GET request, if hub.verify_token equals the
configured verify token the response is status 200 with body the
caller-supplied hub.challenge followed by a newline; otherwise status 403
with the fixed body `Incorrect verify token` plus newline; in neither case
is any handler or the dispatcher touched. -/
theorem verify_endpoint_behavior (hm : String → String → String) (m : Messenger)
    (reg : Registry) (r : Request) (hget : r.method = "GET") :
    (formValue r "hub.verify_token" = m.verifyToken →
       (Handle hm m reg r).resp =
         { status := 200, body := formValue r "hub.challenge" ++ "\n" }) ∧
    (formValue r "hub.verify_token" ≠ m.verifyToken →
       (Handle hm m reg r).resp = { status := 403, body := "Incorrect verify token\n" }) ∧
    (Handle hm m reg r).calls = [] := by
  refine ⟨fun h => ?_, fun h => ?_, ?_⟩
  · simp [Handle, verifyHandler, hget, h]
  · simp [Handle, verifyHandler, hget, h]
  · simp [Handle, hget]

/-- Claim C7, witness: the spec's wrong-token handshake is answered 403 with
the fixed error body and no handler invocation. -/
theorem verify_endpoint_behavior_witness :
    (Handle hmW mAbc regOneMsg reqHandshakeWrong).resp =
      { status := 403, body := "Incorrect verify token\n" } ∧
    (Handle hmW mAbc regOneMsg reqHandshakeWrong).calls = [] :=
  ⟨(verify_endpoint_behavior hmW mAbc regOneMsg reqHandshakeWrong rfl).2.1 (by decide),
   (verify_endpoint_behavior hmW mAbc regOneMsg reqHandshakeWrong rfl).2.2⟩

/-- Claim C8, counterexample: on the spec section 8 POST body (timestamp
1000000) the single Text invocation carries derived time 1000 — the code
divides the raw timestamp by 1000 (`int64(time.Microsecond)`), not by 10^6 —
so the claim's "derived time corresponding to timestamp 1 second" is false
on the code. -/
theorem handle_section8_time_cex :
    (Handle hmW mPlain regOneMsg req8).calls =
      [Invocation.text 1
        { sender := { id := 1 }, recipient := { id := 2 }, time := 1000, text := "hi" }
        { toRecipient := { id := 1 }, token := "" }] ∧
    (Handle hmW mPlain regOneMsg req8).calls ≠
      [Invocation.text 1
        { sender := { id := 1 }, recipient := { id := 2 }, time := 1, text := "hi" }
        { toRecipient := { id := 1 }, token := "" }] :=
  ⟨rfl, by decide⟩

/-- Claim C8, amended: the spec section 8 POST with verification disabled
produces exactly one Text-category invocation with sender id 1, recipient
id 2 and derived time 1000 (the raw timestamp 1000000 divided by 1000, as
Unix seconds), and the response is status 200 with the fixed acknowledgement
body — the same acknowledgement being returned for every registry, including
one with no handlers. -/
theorem handle_section8_post :
    Handle hmW mPlain regOneMsg req8 =
      { resp := { status := 200, body := ackBody },
        calls := [Invocation.text 1
          { sender := { id := 1 }, recipient := { id := 2 }, time := 1000, text := "hi" }
          { toRecipient := { id := 1 }, token := "" }],
        req := req8 } ∧
    (∀ reg : Registry, (Handle hmW mPlain reg req8).resp = { status := 200, body := ackBody }) :=
  ⟨rfl, fun _ => rfl⟩

/-- Claim C9: `checkIntegrity` leaves the request's body stream exactly as it
found it (buffer-and-replay), and in the sha1 branch the bytes hashed are
exactly the request's body bytes — verification succeeds iff the HMAC-SHA1
hex of the (still re-readable) body equals the lowercased header hash. -/
theorem checkIntegrity_buffer_replay (hm : String → String → String)
    (m : Messenger) (r : Request) :
    (checkIntegrity hm m r).2 = r ∧
    (∀ hexEnc hexHash,
       splitN2Eq (headerGet r "X-Hub-Signature") = [hexEnc, hexHash] →
       asciiLower hexEnc = "sha1" → m.appSecret ≠ "" →
       ((checkIntegrity hm m r).1 = .ok () ↔
          hm m.appSecret r.bodyAvail = asciiLower hexHash)) := by
  rcases r with ⟨mth, q, hs, b⟩
  constructor
  · simp only [checkIntegrity, readAll]
    split_ifs <;> rfl
  · intro hexEnc hexHash hsplit henc hsec
    simp only [checkIntegrity, readAll, hsplit, hsec, henc]
    by_cases hh : hm m.appSecret b = asciiLower hexHash <;>
      simp [hh, henc, List.headD, List.getD]

/-- Claim C9, witness: on a concrete verify-mode request with header
`sha1=bb`, checkIntegrity leaves the body stream unchanged and succeeds iff
the keyed hash of that body equals `bb`. -/
theorem checkIntegrity_buffer_replay_witness :
    (checkIntegrity hmW mVerify reqPageBadSig).2 = reqPageBadSig ∧
    ((checkIntegrity hmW mVerify reqPageBadSig).1 = .ok () ↔
       hmW mVerify.appSecret reqPageBadSig.bodyAvail = asciiLower "bb") :=
  ⟨(checkIntegrity_buffer_replay hmW mVerify reqPageBadSig).1,
   (checkIntegrity_buffer_replay hmW mVerify reqPageBadSig).2 "sha1" "bb"
     (by decide) rfl (by decide)⟩

/-- Claim C10: with an empty configured verify token (e.g. Options left at
their zero values), every GET whose hub.verify_token parameter is absent or
empty passes the handshake: status 200, the (possibly empty) hub.challenge
echoed (with the `fmt.Fprintln` newline), and never 403. -/
theorem empty_verify_token_handshake (hm : String → String → String) (mo : Options)
    (reg : Registry) (r : Request)
    (htok : mo.verifyToken = "") (hget : r.method = "GET")
    (habs : formValue r "hub.verify_token" = "") :
    (Handle hm (New mo) reg r).resp.status = 200 ∧
    (Handle hm (New mo) reg r).resp.body = formValue r "hub.challenge" ++ "\n" ∧
    (Handle hm (New mo) reg r).resp.status ≠ 403 := by
  refine ⟨?_, ?_, ?_⟩ <;> simp [Handle, verifyHandler, New, hget, htok, habs]

/-- Claim C10, witness: default options and a bare GET with no query
parameters pass the handshake with status 200. -/
theorem empty_verify_token_handshake_witness :
    (Handle hmW (New {}) {} reqBareGet).resp.status = 200 ∧
    (Handle hmW (New {}) {} reqBareGet).resp.body =
      formValue reqBareGet "hub.challenge" ++ "\n" ∧
    (Handle hmW (New {}) {} reqBareGet).resp.status ≠ 403 :=
  empty_verify_token_handshake hmW {} {} reqBareGet rfl rfl rfl
